import Mathlib

/-!
Verification development for the classiq-library example repository.

The repository consists of Jupyter notebooks (QMCI tutorial, swap test,
MCX, phase kickback, QPE examples, amplitude loading, option pricing)
and one qmod file (whitebox fuzzing).  Each notebook is a linear script
of cells; each cell defines classical variables, declares quantum
functions via the SDK decorator, or calls the external SDK.

The development has two layers:
1. a deep embedding of the programs' statements (calls into the SDK,
   calls to repository functions, quantum block combinators, classical
   assignments and comprehensions), with one table per source file
   translating every quantum function, lambda block and cell; and
2. exact-arithmetic embeddings (over ℚ and ℝ) of the classical numeric
   computations (the QMCI probability array, the exact-amplitude sum,
   the swap-test overlap formulas and the tolerance assertion).
-/

namespace ClassiqLib

/-- Binary operators occurring in classical/quantum arithmetic expressions
of the repository sources. -/
inductive BOp where
  | add | sub | mul | div | mod | pow | lt | le | eqOp | band | bxor
  deriving DecidableEq, Repr

/-- Expressions appearing in statements of the repository sources.
A decimal literal `p/q` of the source is recorded as the pair `decLit p q`
(for example the literal 0.5 is `decLit 1 2`), and a list of such literals
as `listLit`; this keeps equality of embedded programs kernel-decidable.
`extCall` records a call to an external (numpy/SDK) function whose result
is used in a classical assignment; its numeric semantics, where a claim
needs it, is modelled separately over ℚ or ℝ. -/
inductive Expr where
  | var : String → Expr
  | intLit : Int → Expr
  | decLit : Int → ℕ → Expr
  | listLit : List (Int × ℕ) → Expr
  | extCall : String → Expr
  | bin : BOp → Expr → Expr → Expr
  deriving DecidableEq, Repr

/-- Statements of the repository sources.  Quantum-function bodies use the
call, allocate, bind, in-place-assignment and block-combinator forms; cells
additionally use classical assignment, comprehension loops and the numpy
tolerance assertion.  The `tryExcept` and `spawnThread` forms are part of the
statement language so that their absence from every program is a checkable
fact; no source file uses them.  Lambda operands are defunctionalized: each
lambda in the source becomes a named block of its program, and combinator
statements and higher-order calls reference blocks by name. -/
inductive Stmt where
  | callSDK : String → List Expr → List String → Stmt
  | callRepo : String → List Expr → List String → Stmt
  | callOperand : String → List Expr → Stmt
  | declareQ : String → Stmt
  | allocQ : ℕ → String → Stmt
  | allocNum : ℕ → String → Stmt
  | bindQ : List String → List String → Stmt
  | xorAssign : String → Expr → Stmt
  | mulAssign : String → Expr → Stmt
  | assign : String → Expr → Stmt
  | controlQ : Expr → String → Stmt
  | powerQ : ℕ → String → Stmt
  | withinApplyQ : String → String → Stmt
  | invertQ : String → Stmt
  | comprehension : String → String → Stmt
  | assertIsClose : String → String → String → Stmt
  | tryExcept : String → String → Stmt
  | spawnThread : String → Stmt
  deriving DecidableEq, Repr

/-- A quantum function declared in a source file (a python function under
the qfunc decorator, or a qmod `qfunc`). -/
structure QFunc where
  name : String
  params : List String
  body : List Stmt
  deriving DecidableEq, Repr

/-- A notebook code cell.  `defines` and `reads` list the classical
variables textually assigned and referenced in the cell's source;
`stmts` are the cell's top-level statements. -/
structure Cell where
  defines : List String
  reads : List String
  stmts : List Stmt
  deriving DecidableEq, Repr

/-- The empty cell, used as the default for out-of-range cell lookups. -/
def emptyCell : Cell := ⟨[], [], []⟩

/-- One source file of the repository: a notebook or a qmod file.
`funcs` are its declared quantum functions, `blocks` its defunctionalized
lambda operands, `cells` its code cells (empty for the qmod file). -/
structure Program where
  name : String
  funcs : List QFunc
  blocks : List (String × List Stmt)
  cells : List Cell
  deriving DecidableEq, Repr

/-- Names of the external SDK primitives called by the repository sources.
All of them are implemented by the closed-source classiq platform. -/
def sdkPrimitives : List String :=
  ["H", "X", "Z", "U", "CRZ",
   "inplace_prepare_state", "inplace_prepare_int",
   "linear_pauli_rotations", "hadamard_transform",
   "prepare_amplitudes", "swap_test", "qpe", "qpe_flexible",
   "suzuki_trotter", "create_model", "synthesize", "execute", "show",
   "write_qmod", "set_constraints", "set_preferences",
   "set_execution_preferences", "construct_finance_model",
   "QuantumProgram.from_qprog", "LogNormalModelInput",
   "FunctionCondition", "FinanceFunctionInput"]

/-- Names of the external python/numpy/matplotlib functions called by the
notebook cells. -/
def pythonPrimitives : List String :=
  ["print", "sum", "max", "dict", "plt.bar", "plt.xticks",
   "np.random.seed", "np.linspace", "np.linalg.norm",
   "np.sqrt", "np.abs", "np.sin"]

/-- All external primitives: everything callable that is not defined in
this repository. -/
def externalPrimitives : List String := sdkPrimitives ++ pythonPrimitives

/-- Names of python concurrency primitives.  No repository source calls
any of these. -/
def concurrencyPrimitives : List String :=
  ["threading.Thread", "multiprocessing.Process", "asyncio.run",
   "asyncio.create_task", "concurrent.futures.ThreadPoolExecutor"]

namespace QMCI

/-- Value of the module-level variable of the QMCI notebook:
`sp_num_qubits = 3`. -/
def sp_num_qubits : ℕ := 3

/-- Exact-arithmetic semantics of `np.linspace(a, b, n)`: `n` evenly spaced
values from `a` to `b` inclusive, the i-th being `a + (b - a) * i / (n-1)`. -/
def npLinspace (a b : ℚ) (n : ℕ) : List ℚ :=
  (List.range n).map fun i => a + (b - a) * i / ((n : ℚ) - 1)

/-- The QMCI notebook's probability array, in exact arithmetic:
`probabilities = np.linspace(0, 1, 2**sp_num_qubits) / sum(np.linspace(0, 1, 2**sp_num_qubits))`. -/
def probabilities : List ℚ :=
  (npLinspace 0 1 (2 ^ sp_num_qubits)).map
    fun x => x / (npLinspace 0 1 (2 ^ sp_num_qubits)).sum

/-- Value of the module-level variable `slope = 0.5` of the QMCI notebook. -/
def slope : ℚ := 1 / 2

/-- Value of the module-level variable `offset = 0.4` of the QMCI notebook. -/
def offset : ℚ := 2 / 5

/-- The value of `probabilities` as a list of numerator/denominator pairs,
for embedding into program literals; the theorem
`probabilitiesLit_eq_probabilities` identifies it with `probabilities`. -/
def probabilitiesLit : List (Int × ℕ) :=
  [(0, 28), (1, 28), (2, 28), (3, 28), (4, 28), (5, 28), (6, 28), (7, 28)]

/-- The module-level variables of the QMCI notebook that are read inside
the bodies of its quantum functions, with numeric values as
numerator/denominator pairs. -/
structure Globals where
  probabilities : List (Int × ℕ)
  slope : Int × ℕ
  offset : Int × ℕ
  deriving DecidableEq, Repr

/-- The values the QMCI notebook assigns to its module-level variables:
`probabilities` as above, `slope = 0.5`, `offset = 0.4`. -/
def sourceGlobals : Globals := ⟨probabilitiesLit, (1, 2), (2, 5)⟩

/-- Body of `load_probabilities(state)` as constructed when the qfunc is
expanded under module-level variables `g`:
`inplace_prepare_state(probabilities.tolist(), 0, state)` — the global
`probabilities` is evaluated to a literal list at expansion time. -/
def load_probabilities_gen (g : Globals) (state : String) : List Stmt :=
  [.callSDK "inplace_prepare_state"
    [.listLit g.probabilities, .intLit 0, .var state] []]

/-- Body of `amplitude_loading(io, ind)` as constructed under module-level
variables `g`: `linear_pauli_rotations(bases=[Pauli.Y.value], slopes=[slope],
offsets=[offset], x=io, q=ind)`; `Pauli.Y.value` is the literal 2. -/
def amplitude_loading_gen (g : Globals) (io ind : String) : List Stmt :=
  [.callSDK "linear_pauli_rotations"
    [.listLit [(2, 1)], .listLit [g.slope], .listLit [g.offset],
     .var io, .var ind] []]

/-- Body of `state_loading(io, ind)`: a call to `load_probabilities`
followed by a call to `amplitude_loading`.  It reads no module-level
variable directly. -/
def state_loading_gen (_g : Globals) (io ind : String) : List Stmt :=
  [.callRepo "load_probabilities" [.var io] [],
   .callRepo "amplitude_loading" [.var io, .var ind] []]

/-- An alternative assignment of the module-level variables in which the
`probabilities` array is empty, used to exhibit the dependence of
`load_probabilities` on module-level state. -/
def emptyProbGlobals : Globals := ⟨[], (1, 2), (2, 5)⟩

/-- An alternative assignment of the module-level variables that changes
only `slope`, used to instantiate the dependency-tracking theorem. -/
def altSlopeGlobals : Globals := ⟨probabilitiesLit, (9, 1), (2, 5)⟩

/-- Real-number value of `probabilities[n]` (0 outside the array). -/
noncomputable def probR (n : ℕ) : ℝ := ((probabilities.getD n 0 : ℚ) : ℝ)

/-- The classically computed reference amplitude printed by the last QMCI
cell: `sum(np.sin(0.5 * n / 2 + 0.4 / 2) ** 2 * probabilities[n] for n in
range(2**3))`, read in exact real arithmetic. -/
noncomputable def exact_amplitude : ℝ :=
  ∑ n ∈ Finset.range 8, Real.sin (0.5 * n / 2 + 0.4 / 2) ^ 2 * probR n

/-- Modelled from the claim's words, for comparison with `exact_amplitude`:
the target expectation value `(1/28) * Σ_k sin^2(0.25 k + 0.2) * k` of
`f(x) = sin^2(0.25 x + 0.2)` under the distribution `p_i = i/28`. -/
noncomputable def target_expectation : ℝ :=
  (1 / 28) * ∑ k ∈ Finset.range 8, Real.sin (0.25 * k + 0.2) ^ 2 * k

/-- Splitting of a qubit list into consecutive chunks of the given sizes
(the data flow of the qmod `bind` statement). -/
def splitChunks : List ℕ → List ℕ → List (List ℕ)
  | _, [] => []
  | s, k :: ks => s.take k :: splitChunks (s.drop k) ks

/-- Register semantics of `bind(state, regs)` with declared register sizes
`sizes`: the bind succeeds when the declared sizes exactly partition the
source register and every bound register is a quantum variable holding at
least one qubit; it then yields the consecutive chunks. -/
def bindSplit (state : List ℕ) (sizes : List ℕ) : Option (List (List ℕ)) :=
  if sizes.sum = state.length ∧ ∀ k ∈ sizes, 0 < k then
    some (splitChunks state sizes)
  else none

/-- Register data flow of `my_grover_operator(state)` in the QMCI notebook:
`bind(state, [ind, io])` with `ind` a single qubit and `io` declared with
`length=state.len - 1`, then (after the operator's gates, which do not move
qubits between registers) the final `bind([ind, io], state)` reassembles the
full register. -/
def my_grover_operator_regs (state : List ℕ) : Option (List ℕ) :=
  match bindSplit state [1, state.length - 1] with
  | some [ind, io] => some (ind ++ io)
  | _ => none

end QMCI

namespace SwapTest

/-- Exact-real semantics of `np.linalg.norm` on an 8-entry vector:
the Euclidean norm. -/
noncomputable def npNorm (v : Fin 8 → ℝ) : ℝ := Real.sqrt (∑ i, v i ^ 2)

/-- The swap-test notebook's `amps1` after its normalization line
`amps1 = amps1 / np.linalg.norm(amps1)`, as a function of the raw vector
produced by the external random generator. -/
noncomputable def amps1 (raw : Fin 8 → ℝ) : Fin 8 → ℝ :=
  fun i => raw i / npNorm raw

/-- The swap-test notebook's `amps2` after its normalization line, as a
function of the raw vector produced by the external random generator. -/
noncomputable def amps2 (raw : Fin 8 → ℝ) : Fin 8 → ℝ :=
  fun i => raw i / npNorm raw

/-- The swap-test notebook's `exact_overlap = np.abs(amps1 @ amps2)`:
the absolute value of the dot product of the two normalized vectors. -/
noncomputable def exact_overlap (raw1 raw2 : Fin 8 → ℝ) : ℝ :=
  |∑ i, amps1 raw1 i * amps2 raw2 i|

/-- A measurement-outcome count dictionary, as returned by the execution
result: a list of (bitstring, shots) pairs. -/
def Counts : Type := List (String × ℕ)

/-- The notebook's `res[0].value.counts["0"]`: the number of shots whose
outcome string is "0" (0 when absent). -/
def countsZero (counts : Counts) : ℕ :=
  ((counts.find? (fun kv => kv.1 == "0")).map Prod.snd).getD 0

/-- The notebook's `sum(res[0].value.counts.values())`: the total number
of shots in the counts dictionary. -/
def countsTotal (counts : Counts) : ℕ := (counts.map Prod.snd).sum

/-- The swap-test notebook's measured overlap:
`overlap_from_swap_test = np.sqrt(2 * res[0].value.counts["0"] /
sum(res[0].value.counts.values()) - 1)`. -/
noncomputable def overlap_from_swap_test (counts : Counts) : ℝ :=
  Real.sqrt (2 * (countsZero counts : ℝ) / (countsTotal counts : ℝ) - 1)

/-- The notebook's `RTOL = 0.05`, in exact arithmetic. -/
def RTOL : ℚ := 1 / 20

/-- The default absolute tolerance `atol = 1e-08` of `np.isclose`. -/
def npAtolDefault : ℚ := 1 / 100000000

/-- Exact-arithmetic semantics of `np.isclose(a, b, rtol, atol)` (numpy's
documented criterion): `|a - b| <= atol + rtol * |b|`. -/
def npIsClose (a b rtol atol : ℚ) : Bool := |a - b| ≤ atol + rtol * |b|

/-- The swap-test notebook's final cell,
`assert np.isclose(overlap_from_swap_test, exact_overlap, RTOL)`, run on
the values `o` of `overlap_from_swap_test` and `e` of `exact_overlap`:
it raises an AssertionError exactly when the isclose test is false. -/
def runAssertCell (o e : ℚ) : Except String Unit :=
  match npIsClose o e RTOL npAtolDefault with
  | true => .ok ()
  | false => .error "The quantum result is too far from the classical one"

/-- Whether the final swap-test cell raises an AssertionError on values
`o` and `e`. -/
def raisesAssertion (o e : ℚ) : Bool :=
  match runAssertCell o e with
  | .error _ => true
  | .ok _ => false

/-- A concrete unit test vector (the first standard basis vector), used to
instantiate the overlap theorems. -/
noncomputable def unitVec : Fin 8 → ℝ := fun i => if i = 0 then 1 else 0

end SwapTest

/-- Every statement of every quantum function, lambda block and cell of a
program, concatenated. -/
def allStmts (p : Program) : List Stmt :=
  p.funcs.flatMap QFunc.body ++ p.blocks.flatMap Prod.snd ++ p.cells.flatMap Cell.stmts

/-- Whether a statement is a call to an external SDK primitive. -/
def isSDKCall : Stmt → Bool
  | .callSDK n _ _ => externalPrimitives.contains n
  | _ => false

/-- Whether a statement is one of the delegated forms available to a
quantum function: a call to an external SDK primitive, a call to another
repository-defined function, a call to a function-valued operand parameter,
or an SDK statement form (declaration, allocation, bind, in-place
arithmetic assignment, control/power/within-apply/invert block); block
operands must name blocks of the program. -/
def delegatedStmt (p : Program) : Stmt → Bool
  | .callSDK n _ ops =>
      externalPrimitives.contains n && ops.all (p.blocks.map Prod.fst).contains
  | .callRepo n _ ops =>
      (p.funcs.map QFunc.name).contains n &&
        ops.all (p.blocks.map Prod.fst).contains
  | .callOperand _ _ => true
  | .declareQ _ => true
  | .allocQ _ _ => true
  | .allocNum _ _ => true
  | .bindQ _ _ => true
  | .xorAssign _ _ => true
  | .mulAssign _ _ => true
  | .controlQ _ b => (p.blocks.map Prod.fst).contains b
  | .powerQ _ b => (p.blocks.map Prod.fst).contains b
  | .withinApplyQ b1 b2 =>
      (p.blocks.map Prod.fst).contains b1 &&
        (p.blocks.map Prod.fst).contains b2
  | .invertQ b => (p.blocks.map Prod.fst).contains b
  | _ => false

/-- Whether a statement is free of loops and branches: `control` blocks,
`power` blocks and comprehension loops are the only statement forms of the
repository sources that loop or branch. -/
def branchFree : Stmt → Bool
  | .controlQ _ _ => false
  | .powerQ _ _ => false
  | .comprehension _ _ => false
  | _ => true

/-- Whether every statement of a program is free of loops and branches. -/
def programStraightLine (p : Program) : Bool := (allStmts p).all branchFree

/-- All loop or branch statements occurring anywhere in a program. -/
def controlFlowStmts (p : Program) : List Stmt :=
  (allStmts p).filter (fun s => !branchFree s)

/-- Whether a statement handles faults: an assertion or a try/except. -/
def isFaultHandler : Stmt → Bool
  | .assertIsClose _ _ _ => true
  | .tryExcept _ _ => true
  | _ => false

/-- All fault-handling statements of a program. -/
def faultHandlers (p : Program) : List Stmt :=
  (allStmts p).filter isFaultHandler

/-- The external call targets of a statement. -/
def callNames : Stmt → List String
  | .callSDK n _ _ => [n]
  | .callRepo n _ _ => [n]
  | .spawnThread n => [n]
  | _ => []

/-- Whether a statement creates concurrency: a thread spawn, or a call to
a python concurrency primitive. -/
def createsConcurrency : Stmt → Bool
  | .spawnThread _ => true
  | .callSDK n _ _ => concurrencyPrimitives.contains n
  | .callRepo n _ _ => concurrencyPrimitives.contains n
  | _ => false

/-- The names of the external synthesis/execution service calls a cell
issues, in textual order. -/
def cellTrace (c : Cell) : List String :=
  c.stmts.flatMap fun s =>
    match s with
    | .callSDK n _ _ =>
        if n == "synthesize" || n == "execute" || n == "show" then [n] else []
    | _ => []

/-- Sequential execution of a notebook's cells: the service calls of each
cell are issued, in order, before the next cell runs. -/
def runCells : List Cell → List String
  | [] => []
  | c :: cs => cellTrace c ++ runCells cs

/-- The classical array/dictionary variables named by the data-model claim:
arrays of probabilities/amplitudes and outcome-count dictionaries. -/
def dataVars : List String :=
  ["probabilities", "amps1", "amps2", "phases_counts"]

/-- All triples (v, i, j) such that the data variable `v` is assigned in
cell `i` of the program and textually read in a different cell `j`. -/
def crossReadTriples (p : Program) : List (String × ℕ × ℕ) :=
  dataVars.flatMap fun v =>
    (List.range p.cells.length).flatMap fun i =>
      (List.range p.cells.length).flatMap fun j =>
        if i ≠ j ∧ (p.cells.getD i emptyCell).defines.contains v
            ∧ (p.cells.getD j emptyCell).reads.contains v
        then [(v, i, j)] else []

/-- All classical variables assigned by some cell of a program. -/
def definedVars (p : Program) : List String := p.cells.flatMap Cell.defines

/-- All classical variables textually read by some cell of a program. -/
def readVars (p : Program) : List String := p.cells.flatMap Cell.reads

/-- The QMCI notebook (`qmc_user_defined`).  Functions appear in source
order; `main` is redefined three times.  The three `..._gen` functions
give the bodies that read module-level variables, instantiated at the
notebook's values. -/
def qmciProgram : Program where
  name := "qmci"
  funcs :=
    [⟨"load_probabilities", ["state"],
      QMCI.load_probabilities_gen QMCI.sourceGlobals "state"⟩,
     ⟨"amplitude_loading", ["io", "ind"],
      QMCI.amplitude_loading_gen QMCI.sourceGlobals "io" "ind"⟩,
     ⟨"state_loading", ["io", "ind"],
      QMCI.state_loading_gen QMCI.sourceGlobals "io" "ind"⟩,
     ⟨"main", ["res", "ind"],
      [.allocQ 3 "res", .allocQ 1 "ind",
       .callRepo "state_loading" [.var "res", .var "ind"] []]⟩,
     ⟨"good_state_oracle", ["ind"], [.callSDK "Z" [.var "ind"] []]⟩,
     ⟨"prepare_minus", ["q"],
      [.callSDK "X" [.var "q"] [], .callSDK "H" [.var "q"] []]⟩,
     ⟨"zero_oracle", ["x", "ind"], [.withinApplyQ "zo_compute" "zo_action"]⟩,
     ⟨"my_grover_operator", ["state"],
      [.declareQ "io", .declareQ "ind",
       .bindQ ["state"] ["ind", "io"],
       .callRepo "good_state_oracle" [.var "ind"] [],
       .withinApplyQ "mg_compute" "mg_action",
       .callSDK "U" [.intLit 0, .intLit 0, .intLit 0, .var "np.pi"] [],
       .bindQ ["ind", "io"] ["state"]]⟩,
     ⟨"main", ["state"],
      [.declareQ "io", .declareQ "ind",
       .allocQ 3 "io", .allocQ 1 "ind",
       .bindQ ["ind", "io"] ["state"],
       .callRepo "my_grover_operator" [.var "state"] []]⟩,
     ⟨"main", ["phase"],
      [.declareQ "io", .declareQ "ind",
       .allocQ 3 "io", .allocQ 1 "ind",
       .callRepo "state_loading" [.var "io", .var "ind"] [],
       .declareQ "state",
       .bindQ ["ind", "io"] ["state"],
       .allocNum 3 "phase",
       .callSDK "qpe" [] ["qpe_unitary"],
       .bindQ ["state"] ["ind", "io"]]⟩]
  blocks :=
    [("zo_compute", [.callRepo "prepare_minus" [.var "ind"] []]),
     ("zo_action",
      [.controlQ (.bin .eqOp (.var "x") (.intLit 0)) "zo_flip"]),
     ("zo_flip", [.callSDK "X" [.var "ind"] []]),
     ("mg_compute", [.invertQ "mg_inv"]),
     ("mg_inv", [.callRepo "state_loading" [.var "io", .var "ind"] []]),
     ("mg_action", [.callRepo "zero_oracle" [.var "io", .var "ind"] []]),
     ("qpe_unitary", [.callRepo "my_grover_operator" [.var "state"] []])]
  cells :=
    [⟨[], [], []⟩,
     ⟨["sp_num_qubits", "probabilities", "slope", "offset"],
      ["sp_num_qubits", "probabilities", "slope", "offset"],
      [.assign "sp_num_qubits" (.intLit 3),
       .assign "probabilities" (.listLit QMCI.probabilitiesLit),
       .assign "slope" (.decLit 1 2),
       .assign "offset" (.decLit 2 5)]⟩,
     ⟨["model", "qprog"], ["sp_num_qubits"],
      [.callSDK "create_model" [.var "main"] [],
       .callSDK "synthesize" [.var "model"] [],
       .callSDK "show" [.var "qprog"] []]⟩,
     ⟨[], [], []⟩,
     ⟨[], [], []⟩,
     ⟨[], [], []⟩,
     ⟨["model", "qprog"], ["sp_num_qubits"],
      [.callSDK "create_model" [.var "main"] [],
       .callSDK "synthesize" [.var "model"] [],
       .callSDK "show" [.var "qprog"] []]⟩,
     ⟨["n_qpe", "model", "qprog"], ["sp_num_qubits", "n_qpe"],
      [.assign "n_qpe" (.intLit 3),
       .callSDK "create_model" [.var "main"] [],
       .callSDK "set_constraints" [.var "model"] [],
       .callSDK "synthesize" [.var "model"] [],
       .callSDK "show" [.var "qprog"] []]⟩,
     ⟨[], ["model"], [.callSDK "write_qmod" [.var "model"] []]⟩,
     ⟨["res"], ["qprog"], [.callSDK "execute" [.var "qprog"] []]⟩,
     ⟨["phases_counts"], ["res"],
      [.comprehension "phases_counts" "res.parsed_counts"]⟩,
     ⟨[], ["phases_counts"],
      [.callSDK "plt.bar" [.var "phases_counts"] [],
       .callSDK "plt.xticks" [] [],
       .callSDK "print" [.var "phases_counts"] []]⟩,
     ⟨[], ["phases_counts", "probabilities"],
      [.callSDK "print" [.var "phases_counts"] [],
       .comprehension "exact_amplitude_sum" "range(2**3)",
       .callSDK "print" [.var "probabilities"] []]⟩]

/-- The swap-test notebook. -/
def swapTestProgram : Program where
  name := "swap_test"
  funcs :=
    [⟨"main", ["test"],
      [.declareQ "state1", .declareQ "state2",
       .callSDK "prepare_amplitudes"
         [.var "amps1", .decLit 0 1, .var "state1"] [],
       .callSDK "prepare_amplitudes"
         [.var "amps2", .decLit 0 1, .var "state2"] [],
       .callSDK "swap_test"
         [.var "state1", .var "state2", .var "test"] []]⟩]
  blocks := []
  cells :=
    [⟨["NUM_QUBITS", "amps1", "amps2"], ["NUM_QUBITS", "amps1", "amps2"],
      [.callSDK "np.random.seed" [.intLit 12] [],
       .assign "NUM_QUBITS" (.intLit 3),
       .assign "amps1" (.extCall "np.random.rand"),
       .assign "amps2" (.extCall "np.random.rand"),
       .assign "amps1" (.extCall "np.linalg.norm"),
       .assign "amps2" (.extCall "np.linalg.norm")]⟩,
     ⟨["qmod", "qprog"], ["amps1", "amps2", "qmod"],
      [.callSDK "create_model" [.var "main"] [],
       .callSDK "set_execution_preferences" [.var "qmod"] [],
       .callSDK "synthesize" [.var "qmod"] []]⟩,
     ⟨[], ["qprog"], [.callSDK "show" [.var "qprog"] []]⟩,
     ⟨[], ["qmod"], [.callSDK "write_qmod" [.var "qmod"] []]⟩,
     ⟨["res"], ["qprog"], [.callSDK "execute" [.var "qprog"] []]⟩,
     ⟨["overlap_from_swap_test", "exact_overlap"],
      ["res", "amps1", "amps2"],
      [.assign "overlap_from_swap_test" (.extCall "np.sqrt"),
       .assign "exact_overlap" (.extCall "np.abs")]⟩,
     ⟨[], ["overlap_from_swap_test", "exact_overlap"],
      [.callSDK "print" [.var "overlap_from_swap_test"] [],
       .callSDK "print" [.var "exact_overlap"] []]⟩,
     ⟨["RTOL"], ["overlap_from_swap_test", "exact_overlap", "RTOL"],
      [.assign "RTOL" (.decLit 1 20),
       .assertIsClose "overlap_from_swap_test" "exact_overlap" "RTOL"]⟩]

/-- The whitebox-fuzzing qmod file.  It is not a notebook, so it has no
cells; its `main` and the lambda operands of its higher-order functions
are defunctionalized into named blocks. -/
def whiteboxProgram : Program where
  name := "whitebox_fuzzing"
  funcs :=
    [⟨"my_sp", ["x", "y"],
      [.callSDK "hadamard_transform" [.var "x"] [],
       .callSDK "hadamard_transform" [.var "y"] []]⟩,
     ⟨"my_predicate", ["x", "y", "res"],
      [.xorAssign "res"
        (.bin .band
          (.bin .lt (.bin .add (.var "x") (.var "y")) (.intLit 9))
          (.bin .eqOp
            (.bin .mod (.bin .mul (.var "x") (.var "y")) (.intLit 4))
            (.intLit 1)))]⟩,
     ⟨"prep_minus", ["out"],
      [.allocQ 1 "out",
       .callSDK "X" [.var "out"] [], .callSDK "H" [.var "out"] []]⟩,
     ⟨"my_oracle", ["predicate"],
      [.declareQ "aux", .withinApplyQ "myo_compute" "myo_apply"]⟩,
     ⟨"zero_predicate", ["x", "y", "res"],
      [.declareQ "joined",
       .bindQ ["x", "y"] ["joined"],
       .controlQ (.bin .eqOp (.var "joined") (.intLit 0)) "zp_flip",
       .bindQ ["joined"] ["x", "y"]]⟩,
     ⟨"my_diffuser", ["sp_operand", "x", "y"],
      [.withinApplyQ "md_compute" "md_apply"]⟩,
     ⟨"my_grover_operator", ["oracle_operand", "diffuser_operand"],
      [.callOperand "oracle_operand" [],
       .callOperand "diffuser_operand" []]⟩,
     ⟨"main", ["x", "y"],
      [.allocNum 6 "x", .allocNum 6 "y",
       .callRepo "my_sp" [.var "x", .var "y"] [],
       .powerQ 4 "main_power"]⟩]
  blocks :=
    [("myo_compute", [.callRepo "prep_minus" [.var "aux"] []]),
     ("myo_apply", [.callOperand "predicate" [.var "aux"]]),
     ("zp_flip", [.callSDK "X" [.var "res"] []]),
     ("md_compute", [.invertQ "md_inv"]),
     ("md_inv", [.callOperand "sp_operand" [.var "x", .var "y"]]),
     ("md_apply", [.callRepo "my_oracle" [] ["md_pred"]]),
     ("md_pred",
      [.callRepo "zero_predicate" [.var "x", .var "y", .var "arg0"] []]),
     ("main_power", [.callRepo "my_grover_operator" []
       ["main_oracle", "main_diffuser"]]),
     ("main_oracle", [.callRepo "my_oracle" [] ["main_pred"]]),
     ("main_pred",
      [.callRepo "my_predicate" [.var "x", .var "y", .var "arg0"] []]),
     ("main_diffuser",
      [.callRepo "my_diffuser" [.var "x", .var "y"] ["main_sp"]]),
     ("main_sp", [.callRepo "my_sp" [.var "arg0", .var "arg1"] []])]
  cells := []

/-- The MCX-optimization notebook. -/
def mcxProgram : Program where
  name := "mcx"
  funcs :=
    [⟨"my_mcx", ["cntrl", "target"],
      [.controlQ (.var "cntrl") "mcx_flip"]⟩,
     ⟨"main", ["cntrl", "target"],
      [.allocQ 14 "cntrl", .allocQ 1 "target",
       .callRepo "my_mcx" [.var "cntrl", .var "target"] []]⟩,
     ⟨"main", ["cntrl", "target"],
      [.allocQ 50 "cntrl", .allocQ 1 "target",
       .callRepo "my_mcx" [.var "cntrl", .var "target"] []]⟩]
  blocks := [("mcx_flip", [.callSDK "X" [.var "target"] []])]
  cells :=
    [⟨[], [], []⟩,
     ⟨[], [], []⟩,
     ⟨[], [], []⟩,
     ⟨["model"], [], [.callSDK "create_model" [.var "main"] []]⟩,
     ⟨["constraints", "model"], ["model", "constraints"],
      [.callSDK "set_constraints" [.var "model"] [],
       .callSDK "write_qmod" [.var "model"] []]⟩,
     ⟨["qprog"], ["model"],
      [.callSDK "synthesize" [.var "model"] [],
       .callSDK "show" [.var "qprog"] []]⟩,
     ⟨["circuit"], ["qprog", "circuit"],
      [.callSDK "QuantumProgram.from_qprog" [.var "qprog"] [],
       .callSDK "print" [.var "circuit"] []]⟩,
     ⟨["model", "constraints", "preferences", "qprog", "circuit"],
      ["model", "constraints", "preferences", "qprog", "circuit"],
      [.callSDK "create_model" [.var "main"] [],
       .callSDK "set_constraints" [.var "model"] [],
       .callSDK "set_preferences" [.var "model"] [],
       .callSDK "write_qmod" [.var "model"] [],
       .callSDK "synthesize" [.var "model"] [],
       .callSDK "QuantumProgram.from_qprog" [.var "qprog"] [],
       .callSDK "print" [.var "circuit"] [],
       .callSDK "show" [.var "circuit"] []]⟩,
     ⟨["model", "constraints", "preferences", "qprog", "circuit"],
      ["model", "constraints", "preferences", "qprog", "circuit"],
      [.callSDK "create_model" [.var "main"] [],
       .callSDK "set_constraints" [.var "model"] [],
       .callSDK "set_preferences" [.var "model"] [],
       .callSDK "write_qmod" [.var "model"] [],
       .callSDK "synthesize" [.var "model"] [],
       .callSDK "QuantumProgram.from_qprog" [.var "qprog"] [],
       .callSDK "print" [.var "circuit"] [],
       .callSDK "show" [.var "circuit"] []]⟩,
     ⟨["model", "qprog"], ["model", "qprog"],
      [.callSDK "create_model" [.var "main"] [],
       .callSDK "write_qmod" [.var "model"] [],
       .callSDK "synthesize" [.var "model"] [],
       .callSDK "show" [.var "qprog"] []]⟩]

/-- The phase-kickback notebook.  Its final cell repeats the four function
definitions verbatim; the functions are listed once. -/
def phaseKickbackProgram : Program where
  name := "phase_kickback"
  funcs :=
    [⟨"prepare_minus", ["target"],
      [.allocQ 1 "target",
       .callSDK "X" [.var "target"] [], .callSDK "H" [.var "target"] []]⟩,
     ⟨"oracle_function", ["target", "x"],
      [.xorAssign "target" (.bin .eqOp (.var "x") (.intLit 0))]⟩,
     ⟨"oracle_phase_kickback", ["x"],
      [.declareQ "target", .withinApplyQ "pk_compute" "pk_action"]⟩,
     ⟨"main", ["x"],
      [.allocQ 4 "x",
       .callSDK "hadamard_transform" [.var "x"] [],
       .callRepo "oracle_phase_kickback" [.var "x"] []]⟩]
  blocks :=
    [("pk_compute", [.callRepo "prepare_minus" [.var "target"] []]),
     ("pk_action",
      [.callRepo "oracle_function" [.var "target", .var "x"] []])]
  cells :=
    [⟨[], [], []⟩,
     ⟨[], [], []⟩,
     ⟨[], [], []⟩,
     ⟨["qmod", "qprog"], ["qmod", "qprog"],
      [.callSDK "create_model" [.var "main"] [],
       .callSDK "synthesize" [.var "qmod"] [],
       .callSDK "show" [.var "qprog"] []]⟩,
     ⟨["qmod", "qprog"], ["qmod", "qprog"],
      [.callSDK "create_model" [.var "main"] [],
       .callSDK "synthesize" [.var "qmod"] [],
       .callSDK "show" [.var "qprog"] [],
       .callSDK "write_qmod" [.var "qmod"] []]⟩]

/-- The QPE function-usage-example notebook; `main` is defined twice
(plain QPE, then flexible QPE over a Hamiltonian). -/
def qpeExampleProgram : Program where
  name := "qpe_example"
  funcs :=
    [⟨"main", ["state", "phase"],
      [.allocQ 2 "state", .allocNum 2 "phase",
       .callSDK "inplace_prepare_int" [.intLit 3, .var "state"] [],
       .callSDK "qpe" [] ["qpe1_unitary"]]⟩,
     ⟨"main", ["state", "phase"],
      [.allocQ 2 "state", .allocNum 2 "phase",
       .callSDK "hadamard_transform" [.var "state"] [],
       .callSDK "qpe_flexible" [] ["qpe2_unitary"]]⟩]
  blocks :=
    [("qpe1_unitary",
      [.callSDK "CRZ" [.var "pi", .var "state"] []]),
     ("qpe2_unitary",
      [.callSDK "suzuki_trotter"
        [.var "HAMILTONIAN", .var "power_arg"] []])]
  cells :=
    [⟨["QPE_RESOLUTION", "qmod"], ["QPE_RESOLUTION"],
      [.assign "QPE_RESOLUTION" (.intLit 2),
       .callSDK "create_model" [.var "main"] []]⟩,
     ⟨["qprog"], ["qmod"],
      [.callSDK "write_qmod" [.var "qmod"] [],
       .callSDK "synthesize" [.var "qmod"] []]⟩,
     ⟨["res"], ["qprog", "res"],
      [.callSDK "execute" [.var "qprog"] [],
       .callSDK "print" [.var "res"] []]⟩,
     ⟨["QPE_RESOLUTION", "HAMILTONIAN", "qmod"],
      ["QPE_RESOLUTION", "HAMILTONIAN"],
      [.assign "QPE_RESOLUTION" (.intLit 2),
       .assign "HAMILTONIAN" (.extCall "PauliTerm"),
       .callSDK "create_model" [.var "main"] []]⟩,
     ⟨["qprog"], ["qmod"],
      [.callSDK "write_qmod" [.var "qmod"] [],
       .callSDK "synthesize" [.var "qmod"] []]⟩,
     ⟨["res"], ["qprog", "res"],
      [.callSDK "execute" [.var "qprog"] [],
       .callSDK "print" [.var "res"] []]⟩]

/-- The amplitude-loading function-usage-example notebook. -/
def amplitudeLoadingProgram : Program where
  name := "amplitude_loading_example"
  funcs :=
    [⟨"main", ["x", "ind"],
      [.allocNum 4 "x", .allocQ 1 "ind",
       .mulAssign "ind" (.bin .pow (.var "x") (.intLit 2))]⟩]
  blocks := []
  cells :=
    [⟨["VAR_SIZE", "qmod"], ["VAR_SIZE"],
      [.assign "VAR_SIZE" (.intLit 4),
       .callSDK "create_model" [.var "main"] []]⟩,
     ⟨["qprog"], ["qmod"],
      [.callSDK "write_qmod" [.var "qmod"] [],
       .callSDK "synthesize" [.var "qmod"] []]⟩]

/-- The option-pricing notebook: it defines no quantum functions of its
own, only configuration objects handed to the SDK's model constructor. -/
def optionPricingProgram : Program where
  name := "option_pricing"
  funcs := []
  blocks := []
  cells :=
    [⟨["num_qubits", "mu", "sigma", "log_normal_model"],
      ["num_qubits", "mu", "sigma"],
      [.assign "num_qubits" (.intLit 5),
       .assign "mu" (.decLit 7 10),
       .assign "sigma" (.decLit 13 100),
       .callSDK "LogNormalModelInput"
         [.var "num_qubits", .var "mu", .var "sigma"] []]⟩,
     ⟨["threshold", "condition", "finance_function"],
      ["threshold", "condition"],
      [.assign "threshold" (.intLit 2),
       .callSDK "FunctionCondition" [.var "threshold"] [],
       .callSDK "FinanceFunctionInput" [.var "condition"] []]⟩,
     ⟨["qmod"], ["log_normal_model", "finance_function"],
      [.callSDK "construct_finance_model"
        [.var "log_normal_model", .var "finance_function"] []]⟩,
     ⟨[], ["qmod"], [.callSDK "write_qmod" [.var "qmod"] []]⟩,
     ⟨["qprog"], ["qmod"],
      [.callSDK "synthesize" [.var "qmod"] [],
       .callSDK "show" [.var "qprog"] []]⟩,
     ⟨["results"], ["qprog"], [.callSDK "execute" [.var "qprog"] []]⟩,
     ⟨[], ["results"], [.callSDK "print" [.var "results"] []]⟩]

/-- All seven source files of the repository. -/
def allPrograms : List Program :=
  [qmciProgram, swapTestProgram, whiteboxProgram, mcxProgram,
   phaseKickbackProgram, qpeExampleProgram, amplitudeLoadingProgram,
   optionPricingProgram]

/-- Whether no data variable assigned in one program is read by a cell of
a different program. -/
def crossProgramIsolated : Bool :=
  allPrograms.all fun p => allPrograms.all fun q =>
    p.name == q.name ||
      (definedVars p).all fun v =>
        !(dataVars.contains v) || !((readVars q).contains v)

end ClassiqLib

namespace ClassiqLib

/-- Evaluation of the QMCI probability array to an explicit list of
rationals. -/
theorem probabilities_eval :
    QMCI.probabilities =
      [0, 1/28, 2/28, 3/28, 4/28, 5/28, 6/28, 7/28] := by
  norm_num [QMCI.probabilities, QMCI.npLinspace, QMCI.sp_num_qubits,
    List.range_succ]

/-- The literal numerator/denominator list embedded in the program tables
denotes exactly the QMCI probability array. -/
theorem probabilitiesLit_eq_probabilities :
    QMCI.probabilitiesLit.map (fun p => (p.1 : ℚ) / (p.2 : ℚ)) =
      QMCI.probabilities := by
  rw [probabilities_eval]
  norm_num [QMCI.probabilitiesLit]

/-- C8: in the QMCI notebook, `probabilities` is a valid probability
distribution: it has exactly 8 entries, entry i equals i/28 in exact
arithmetic, every entry is nonnegative, and the entries sum to exactly 1. -/
theorem C8_probabilities_distribution :
    QMCI.probabilities.length = 8 ∧
    QMCI.probabilities = (List.range 8).map (fun i => (i : ℚ) / 28) ∧
    (∀ x ∈ QMCI.probabilities, 0 ≤ x) ∧
    QMCI.probabilities.sum = 1 := by
  rw [probabilities_eval]
  refine ⟨rfl, ?_, ?_, ?_⟩
  · norm_num [List.range_succ]
  · intro x hx
    fin_cases hx <;> norm_num
  · norm_num

/-- C9: the QMCI reference amplitude `Σ_n sin(0.5*n/2 + 0.4/2)^2 *
probabilities[n]` equals `(1/28) * Σ_k sin^2(0.25*k + 0.2) * k`, the target
expectation value of f(x) = sin^2(0.25x + 0.2) under p_i = i/28: the slope
0.5 and offset 0.4 halve to exactly the coefficients 0.25 and 0.2. -/
theorem C9_exact_amplitude_is_target :
    QMCI.exact_amplitude = QMCI.target_expectation := by
  have hq : ∀ n, n < 8 → (QMCI.probabilities.getD n 0 : ℚ) = n / 28 := by
    rw [probabilities_eval]
    intro n hn
    interval_cases n <;> norm_num
  unfold QMCI.exact_amplitude QMCI.target_expectation
  rw [Finset.mul_sum]
  refine Finset.sum_congr rfl (fun n hn => ?_)
  rw [Finset.mem_range] at hn
  have h1 : QMCI.probR n = (n : ℝ) / 28 := by
    unfold QMCI.probR
    rw [hq n hn]
    push_cast
    ring
  have h2 : (0.5 : ℝ) * n / 2 + 0.4 / 2 = 0.25 * n + 0.2 := by
    norm_num
    ring
  rw [h1, h2]
  ring

/-- C1 counterexample: it is not the case that every repository-defined
function's body is a sequence of calls into external SDK primitives; in
particular `my_predicate` in the whitebox-fuzzing qmod consists of an
in-place XOR assignment of a repository-authored arithmetic expression,
and several functions call other repository-defined functions. -/
theorem C1_counterexample :
    (allPrograms.all fun p => p.funcs.all fun f => f.body.all isSDKCall)
      = false := by decide

/-- C1 (amended): every statement of every repository-defined quantum
function or lambda block is a delegated form — a call to an external SDK
primitive, a call to another repository-defined function or operand, or an
SDK statement form (declaration, allocation, bind, in-place arithmetic
assignment, control/power/within-apply/invert block); the in-place
assignments embed repository-authored arithmetic expressions whose
evaluation is delegated to the external platform. -/
theorem C1_all_functions_delegate :
    (allPrograms.all fun p =>
      p.funcs.all (fun f => f.body.all (delegatedStmt p)) &&
      p.blocks.all (fun b => b.2.all (delegatedStmt p))) = true := by decide

/-- C2: the swap-test notebook raises an AssertionError exactly when
`np.isclose(overlap_from_swap_test, exact_overlap, 0.05)` is false, that
is, when `|o - e| <= atol + 0.05 * |e|` fails (with numpy's default
`atol = 1e-08`); and across all seven source files the only
fault-handling statement is that single assertion — no other repository
code checks for or recovers from failure of any external-service call. -/
theorem C2_only_fault_handling_is_tolerance_assert :
    (∀ o e : ℚ, SwapTest.raisesAssertion o e = true ↔
      ¬ (|o - e| ≤ SwapTest.npAtolDefault + SwapTest.RTOL * |e|)) ∧
    (allPrograms.map fun p => (p.name, faultHandlers p)) =
      [("qmci", []),
       ("swap_test",
        [.assertIsClose "overlap_from_swap_test" "exact_overlap" "RTOL"]),
       ("whitebox_fuzzing", []), ("mcx", []), ("phase_kickback", []),
       ("qpe_example", []), ("amplitude_loading_example", []),
       ("option_pricing", [])] := by
  constructor
  · intro o e
    by_cases hc : |o - e| ≤ SwapTest.npAtolDefault + SwapTest.RTOL * |e|
    · have hb : SwapTest.npIsClose o e SwapTest.RTOL SwapTest.npAtolDefault
          = true := decide_eq_true hc
      have hr : SwapTest.raisesAssertion o e = false := by
        unfold SwapTest.raisesAssertion SwapTest.runAssertCell
        rw [hb]
      rw [hr]
      simp [hc]
    · have hb : SwapTest.npIsClose o e SwapTest.RTOL SwapTest.npAtolDefault
          = false := decide_eq_false hc
      have hr : SwapTest.raisesAssertion o e = true := by
        unfold SwapTest.raisesAssertion SwapTest.runAssertCell
        rw [hb]
      rw [hr]
      simp [hc]
  · decide

/-- Euclidean norm of a vector divided by its own norm is 1, provided the
vector is nonzero. -/
theorem npNorm_normalize (v : Fin 8 → ℝ) (h : ∑ i, v i ^ 2 ≠ 0) :
    SwapTest.npNorm (fun i => v i / SwapTest.npNorm v) = 1 := by
  have hS : (0 : ℝ) < ∑ i, v i ^ 2 :=
    lt_of_le_of_ne (Finset.sum_nonneg fun i _ => sq_nonneg (v i)) (Ne.symm h)
  show Real.sqrt (∑ i, (v i / SwapTest.npNorm v) ^ 2) = 1
  unfold SwapTest.npNorm
  have hsq : Real.sqrt (∑ i, v i ^ 2) ^ 2 = ∑ i, v i ^ 2 := Real.sq_sqrt hS.le
  simp_rw [div_pow, hsq]
  rw [← Finset.sum_div, div_self h, Real.sqrt_one]

/-- C3: the swap-test tolerance check compares a measured overlap against
a classically computed dot-product overlap: `amps1` and `amps2` are
unit-normalized 8-entry vectors, `exact_overlap` is the absolute value of
their dot product, and `overlap_from_swap_test` equals
`sqrt(2 * counts["0"] / (total shot count) - 1)`. -/
theorem C3_overlap_formulas (raw1 raw2 : Fin 8 → ℝ)
    (h1 : ∑ i, raw1 i ^ 2 ≠ 0) (h2 : ∑ i, raw2 i ^ 2 ≠ 0) :
    SwapTest.npNorm (SwapTest.amps1 raw1) = 1 ∧
    SwapTest.npNorm (SwapTest.amps2 raw2) = 1 ∧
    SwapTest.exact_overlap raw1 raw2 =
      |∑ i, SwapTest.amps1 raw1 i * SwapTest.amps2 raw2 i| ∧
    (∀ counts, SwapTest.overlap_from_swap_test counts =
      Real.sqrt (2 * (SwapTest.countsZero counts : ℝ) /
        (SwapTest.countsTotal counts : ℝ) - 1)) := by
  refine ⟨npNorm_normalize raw1 h1, npNorm_normalize raw2 h2, rfl,
    fun counts => rfl⟩

/-- Witness for C3 at the first standard basis vector. -/
theorem C3_overlap_formulas_witness :
    SwapTest.npNorm (SwapTest.amps1 SwapTest.unitVec) = 1 ∧
    SwapTest.npNorm (SwapTest.amps2 SwapTest.unitVec) = 1 ∧
    SwapTest.exact_overlap SwapTest.unitVec SwapTest.unitVec =
      |∑ i, SwapTest.amps1 SwapTest.unitVec i *
        SwapTest.amps2 SwapTest.unitVec i| ∧
    (∀ counts, SwapTest.overlap_from_swap_test counts =
      Real.sqrt (2 * (SwapTest.countsZero counts : ℝ) /
        (SwapTest.countsTotal counts : ℝ) - 1)) :=
  C3_overlap_formulas SwapTest.unitVec SwapTest.unitVec
    (by norm_num [SwapTest.unitVec, Fin.sum_univ_eight])
    (by norm_num [SwapTest.unitVec, Fin.sum_univ_eight])

/-- C4 counterexample: it is not the case that the classical data
variables are confined to the cell defining them; for example the QMCI
`probabilities` array is assigned in cell 1 and read in cell 12, and
`phases_counts` and the swap-test amplitude vectors are likewise read by
later cells. -/
theorem C4_counterexample :
    (allPrograms.all fun p => (crossReadTriples p).isEmpty) = false := by
  decide

/-- C4 (amended): the classical data variables are read by later cells of
their own notebook — exactly: `probabilities` by the QMCI exact-amplitude
cell, `phases_counts` by the QMCI plotting and amplitude cells,
`amps1`/`amps2` by the swap-test model and overlap cells — no such
variable is read by any other source file, and the only predicate over
values derived from them required by later code is the swap-test
tolerance assertion. -/
theorem C4_data_variable_lifecycle :
    (allPrograms.map fun p => (p.name, crossReadTriples p)) =
      [("qmci",
        [("probabilities", 1, 12), ("phases_counts", 10, 11),
         ("phases_counts", 10, 12)]),
       ("swap_test",
        [("amps1", 0, 1), ("amps1", 0, 5),
         ("amps2", 0, 1), ("amps2", 0, 5)]),
       ("whitebox_fuzzing", []), ("mcx", []), ("phase_kickback", []),
       ("qpe_example", []), ("amplitude_loading_example", []),
       ("option_pricing", [])] ∧
    crossProgramIsolated = true ∧
    (allPrograms.map fun p => (p.name, faultHandlers p)) =
      [("qmci", []),
       ("swap_test",
        [.assertIsClose "overlap_from_swap_test" "exact_overlap" "RTOL"]),
       ("whitebox_fuzzing", []), ("mcx", []), ("phase_kickback", []),
       ("qpe_example", []), ("amplitude_loading_example", []),
       ("option_pricing", [])] := by
  refine ⟨by decide, by decide, by decide⟩

/-- C5 counterexample: `load_probabilities` does depend on module-level
state — expanding it under the notebook's globals and under globals whose
`probabilities` array is empty yields different bodies, with the same
explicit argument. -/
theorem C5_counterexample :
    decide (QMCI.load_probabilities_gen QMCI.sourceGlobals "state" =
      QMCI.load_probabilities_gen QMCI.emptyProbGlobals "state") = false := by
  decide

/-- C5 (amended): `load_probabilities`, `amplitude_loading` and
`state_loading` depend on module-level variables, but only on the declared
parameters (`probabilities`; `slope` and `offset`; none, respectively):
for equal explicit arguments and equal values of those variables two
expansions are equal, and each of the three variables is assigned in
exactly one cell of the notebook and never reassigned. -/
theorem C5_global_dependence :
    (∀ g₁ g₂ : QMCI.Globals, ∀ s : String,
      g₁.probabilities = g₂.probabilities →
      QMCI.load_probabilities_gen g₁ s = QMCI.load_probabilities_gen g₂ s) ∧
    (∀ g₁ g₂ : QMCI.Globals, ∀ io ind : String,
      g₁.slope = g₂.slope → g₁.offset = g₂.offset →
      QMCI.amplitude_loading_gen g₁ io ind =
        QMCI.amplitude_loading_gen g₂ io ind) ∧
    (∀ g₁ g₂ : QMCI.Globals, ∀ io ind : String,
      QMCI.state_loading_gen g₁ io ind = QMCI.state_loading_gen g₂ io ind) ∧
    qmciProgram.cells.countP
      (fun c => c.defines.contains "probabilities") = 1 ∧
    qmciProgram.cells.countP (fun c => c.defines.contains "slope") = 1 ∧
    qmciProgram.cells.countP (fun c => c.defines.contains "offset") = 1 := by
  refine ⟨?_, ?_, ?_, by decide, by decide, by decide⟩
  · intro g₁ g₂ s h
    simp [QMCI.load_probabilities_gen, h]
  · intro g₁ g₂ io ind hs ho
    simp [QMCI.amplitude_loading_gen, hs, ho]
  · intro g₁ g₂ io ind
    rfl

/-- Witness for C5 (amended): two global assignments sharing the
probability array but differing in slope expand `load_probabilities` to
the same body. -/
theorem C5_global_dependence_witness :
    QMCI.load_probabilities_gen QMCI.sourceGlobals "state" =
      QMCI.load_probabilities_gen QMCI.altSlopeGlobals "state" :=
  C5_global_dependence.1 QMCI.sourceGlobals QMCI.altSlopeGlobals "state" rfl

/-- C6 counterexample: not every repository program is a straight-line
sequence: the whitebox-fuzzing main repeats its Grover operator under a
`power (4)` block and its zero predicate branches under `control`, the
QMCI and MCX oracles use `control`, and the QMCI post-processing cells
loop over results with comprehensions. -/
theorem C6_counterexample :
    (allPrograms.all programStraightLine) = false := by decide

/-- C6 (amended): the loop and branch statements of the repository are
exactly the SDK `control` blocks of the three oracles, the fixed
`power (4)` repetition of the whitebox-fuzzing main, and the two bounded
comprehensions of the QMCI post-processing cells; every other statement
of every program is straight-line. -/
theorem C6_control_flow_enumeration :
    (allPrograms.map fun p => (p.name, controlFlowStmts p)) =
      [("qmci",
        [.controlQ (.bin .eqOp (.var "x") (.intLit 0)) "zo_flip",
         .comprehension "phases_counts" "res.parsed_counts",
         .comprehension "exact_amplitude_sum" "range(2**3)"]),
       ("swap_test", []),
       ("whitebox_fuzzing",
        [.controlQ (.bin .eqOp (.var "joined") (.intLit 0)) "zp_flip",
         .powerQ 4 "main_power"]),
       ("mcx", [.controlQ (.var "cntrl") "mcx_flip"]),
       ("phase_kickback", []), ("qpe_example", []),
       ("amplitude_loading_example", []), ("option_pricing", [])] := by
  decide

/-- C7: notebook execution is sequential — the service calls of a prefix
of cells all precede those of the remaining cells — and no repository
statement creates concurrency, cancellation or shared resources: no
program spawns a thread or calls a python concurrency primitive. -/
theorem C7_sequential_no_concurrency :
    (∀ cs₁ cs₂ : List Cell,
      runCells (cs₁ ++ cs₂) = runCells cs₁ ++ runCells cs₂) ∧
    (allPrograms.all fun p =>
      (allStmts p).all fun s => !createsConcurrency s) = true := by
  constructor
  · intro cs₁ cs₂
    induction cs₁ with
    | nil => rfl
    | cons c cs ih => simp [runCells, ih]
  · decide

/-- Register restoration for `my_grover_operator` on a register with at
least two qubits. -/
theorem mg_regs_cons (a b : ℕ) (t : List ℕ) :
    QMCI.my_grover_operator_regs (a :: b :: t) = some (a :: b :: t) := by
  unfold QMCI.my_grover_operator_regs QMCI.bindSplit
  have h1 : (a :: b :: t).length - 1 = t.length + 1 := by simp
  rw [h1]
  have hsplit : QMCI.splitChunks (a :: b :: t) [1, t.length + 1] =
      [[a], b :: t] := by
    have h2 : (b :: t).take (t.length + 1) = b :: t := by
      have h3 := List.take_length (b :: t)
      simp only [List.length_cons] at h3
      exact h3
    simp [QMCI.splitChunks, h2]
  rw [if_pos]
  · rw [hsplit]
    rfl
  · refine ⟨?_, ?_⟩
    · simp only [List.sum_cons, List.sum_nil, List.length_cons]
      omega
    · intro k hk
      simp at hk
      rcases hk with rfl | rfl <;> omega

/-- The register split of `my_grover_operator` fails on the empty
register. -/
theorem mg_regs_nil : QMCI.my_grover_operator_regs [] = none := rfl

/-- The register split of `my_grover_operator` fails on a one-qubit
register: the declared `io` register would be empty. -/
theorem mg_regs_single (x : ℕ) :
    QMCI.my_grover_operator_regs [x] = none := rfl

/-- C10: `my_grover_operator` preserves its register: for every register
of length L ≥ 2 the split into a 1-qubit `ind` and an (L-1)-qubit `io` has
sizes summing to L and the final bind restores the full register, while
for L < 2 the split is ill-defined (the bind fails). -/
theorem C10_grover_register_partition (state : List ℕ) :
    (2 ≤ state.length →
      1 + (state.length - 1) = state.length ∧
      QMCI.my_grover_operator_regs state = some state) ∧
    (state.length < 2 → QMCI.my_grover_operator_regs state = none) := by
  constructor
  · intro h
    match state with
    | [] => simp at h
    | [x] => simp at h
    | a :: b :: t =>
      refine ⟨?_, mg_regs_cons a b t⟩
      simp only [List.length_cons]
      omega
  · intro h
    match state with
    | [] => exact mg_regs_nil
    | [x] => exact mg_regs_single x
    | a :: b :: t =>
      exact absurd h (by simp only [List.length_cons]; omega)

/-- Witness for C10 at a concrete three-qubit register. -/
theorem C10_grover_register_partition_witness :
    QMCI.my_grover_operator_regs [3, 1, 4] = some [3, 1, 4] :=
  ((C10_grover_register_partition [3, 1, 4]).1 (by decide)).2

end ClassiqLib
